import Mathlib

/-!
WCAG rule-evaluation core: a shallow embedding.

This file embeds the rule-evaluation and report-aggregation core of the
`wcag-mcp` repository in Lean 4 and proves properties about it.

Conventions of the embedding:
* TypeScript `number` values are modelled as rationals (`ℚ`); all arithmetic
  the embedded code performs (threshold comparisons, `Math.round(x*100)/100`)
  is exact on the values the checks manipulate.
* Optional fields (`x?: T`) become `Option T`; the JavaScript `x ?? d`
  and falsy-default idioms are translated explicitly.
* `new Date().toISOString()` (the only effect in the report builder) is
  modelled by passing the render-time timestamp as an explicit argument.
* The external color-math capability (`culori`'s `parse` and `wcagContrast`)
  is out of the core per the specification; it is modelled as function
  parameters over an arbitrary color type.
* Template-literal interpolation of numbers is modelled by `decimalString`
  (JavaScript prints the produced terminating decimals without trailing
  zeros) and `toFixed1` for `x.toFixed(1)`.
-/

/-- WcagLevel: `"A" | "AA" | "AAA"` (src/packages/core/src/types.ts). -/
inductive WcagLevel where
  | A
  | AA
  | AAA
deriving DecidableEq, Repr

/-- CheckStatus: `"pass" | "fail" | "warning" | "info"` (types.ts). -/
inductive CheckStatus where
  | pass
  | fail
  | warning
  | info
deriving DecidableEq, Repr

/-- The type of the optional `value` field of a check result:
`string | number | boolean`. -/
inductive CheckValue where
  | s (v : String)
  | n (v : ℚ)
  | b (v : Bool)
deriving DecidableEq, Repr

/-- The type of the optional `required` field: `string | number`. -/
inductive ReqValue where
  | s (v : String)
  | n (v : ℚ)
deriving DecidableEq, Repr

/-- CheckResult (types.ts): one verdict emitted by a check function.
Field order follows the interface declaration. -/
structure CheckResult where
  criterion : String
  name : String
  level : WcagLevel
  status : CheckStatus
  value : Option CheckValue
  required : Option ReqValue
  message : String
  recommendation : Option String
deriving DecidableEq, Repr

/-- WcagCriterion (types.ts): one entry of the criteria catalog. -/
structure WcagCriterion where
  id : String
  name : String
  level : WcagLevel
  description : String
  url : String
  category : Option String
deriving DecidableEq, Repr

/-- Per-level pass/fail tally used inside `ReportSummary`. -/
structure LevelTally where
  passed : Nat
  failed : Nat
deriving DecidableEq, Repr

/-- ReportSummary (types.ts). -/
structure ReportSummary where
  total : Nat
  passed : Nat
  failed : Nat
  warnings : Nat
  levelA : LevelTally
  levelAA : LevelTally
  levelAAA : LevelTally
deriving DecidableEq, Repr

/-- The summary block of `MachineReport` (types.ts): no per-level tallies. -/
structure MachineSummary where
  total : Nat
  passed : Nat
  failed : Nat
  warnings : Nat
deriving DecidableEq, Repr

/-- One element of `MachineReport.results` (types.ts): a check result
augmented with the resolved reference URL. -/
structure MachineResult where
  criterion : String
  name : String
  level : WcagLevel
  status : CheckStatus
  value : Option CheckValue
  required : Option ReqValue
  message : String
  recommendation : Option String
  url : Option String
deriving DecidableEq, Repr

/-- MachineReport (types.ts). `timestamp` is the ISO-8601 string captured
at render time. -/
structure MachineReport where
  wcagVersion : String
  timestamp : String
  category : Option String
  summary : MachineSummary
  results : List MachineResult
deriving DecidableEq, Repr

/-- ValidationReport (types.ts). -/
structure ValidationReport where
  summary : ReportSummary
  results : List CheckResult
  human : String
  machine : MachineReport
deriving DecidableEq, Repr

/-- The optional `options` bag of `createReport`. -/
structure ReportOptions where
  title : Option String
  category : Option String
deriving DecidableEq, Repr

/-- JavaScript object access `m[k]` on a string-keyed record modelled as an
insertion-ordered association list. -/
def jsGet {α : Type} (m : List (String × α)) (k : String) : Option α :=
  (m.find? (fun p => p.1 == k)).map (fun p => p.2)

/-- Rendering of `WcagLevel` back to its source string. -/
def levelStr : WcagLevel → String
  | WcagLevel.A => "A"
  | WcagLevel.AA => "AA"
  | WcagLevel.AAA => "AAA"

/-- `Math.round` (round half toward +∞) on rationals. -/
def jsMathRound (x : ℚ) : ℤ := ⌊x + 1/2⌋

/-- Fractional digits of a rational in `[0,1)`, most significant first,
stopping when the remainder is zero (so no trailing zeros), with fuel. -/
def fracDigits : ℚ → Nat → List Char
  | _, 0 => []
  | q, Nat.succ fuel =>
    if q = 0 then []
    else
      let q10 := q * 10
      let d := ⌊q10⌋
      Char.ofNat (48 + d.toNat) :: fracDigits (q10 - (d : ℚ)) fuel

/-- JavaScript template-literal rendering of the terminating decimals this
code produces (e.g. `12.63`, `1.5`, `24`): integer part, then fractional
digits without trailing zeros. -/
def decimalString (q : ℚ) : String :=
  let sign := if q < 0 then "-" else ""
  let a := |q|
  let ip := ⌊a⌋
  let ds := fracDigits (a - (ip : ℚ)) 12
  if ds.isEmpty then sign ++ toString ip
  else sign ++ toString ip ++ "." ++ String.mk ds

/-- JavaScript `x.toFixed(1)` for the nonnegative values this code passes
to it. -/
def toFixed1 (q : ℚ) : String :=
  let r := ⌊q * 10 + 1/2⌋
  toString (r / 10) ++ "." ++ toString (r % 10)

set_option maxHeartbeats 1600000 in
/-- WCAG_CRITERIA (src/packages/core/src/criteria.ts): the static criteria
catalog, keyed by criterion id, in declaration order. -/
def WCAG_CRITERIA : List (String × WcagCriterion) := [
  ("1.1.1", ⟨"1.1.1", "Non-text Content", WcagLevel.A, "All non-text content has a text alternative", "https://www.w3.org/TR/WCAG21/#non-text-content", some "text-alternatives"⟩),
  ("1.2.1", ⟨"1.2.1", "Audio-only and Video-only (Prerecorded)", WcagLevel.A, "Alternatives provided for prerecorded audio-only and video-only content", "https://www.w3.org/TR/WCAG21/#audio-only-and-video-only-prerecorded", some "media"⟩),
  ("1.2.2", ⟨"1.2.2", "Captions (Prerecorded)", WcagLevel.A, "Captions provided for prerecorded audio in synchronized media", "https://www.w3.org/TR/WCAG21/#captions-prerecorded", some "media"⟩),
  ("1.2.3", ⟨"1.2.3", "Audio Description or Media Alternative (Prerecorded)", WcagLevel.A, "Audio description or alternative provided for prerecorded video", "https://www.w3.org/TR/WCAG21/#audio-description-or-media-alternative-prerecorded", some "media"⟩),
  ("1.2.4", ⟨"1.2.4", "Captions (Live)", WcagLevel.AA, "Captions provided for live audio in synchronized media", "https://www.w3.org/TR/WCAG21/#captions-live", some "media"⟩),
  ("1.2.5", ⟨"1.2.5", "Audio Description (Prerecorded)", WcagLevel.AA, "Audio description provided for prerecorded video", "https://www.w3.org/TR/WCAG21/#audio-description-prerecorded", some "media"⟩),
  ("1.2.6", ⟨"1.2.6", "Sign Language (Prerecorded)", WcagLevel.AAA, "Sign language interpretation provided for prerecorded audio", "https://www.w3.org/TR/WCAG21/#sign-language-prerecorded", some "media"⟩),
  ("1.2.7", ⟨"1.2.7", "Extended Audio Description (Prerecorded)", WcagLevel.AAA, "Extended audio description provided where pauses are insufficient", "https://www.w3.org/TR/WCAG21/#extended-audio-description-prerecorded", some "media"⟩),
  ("1.2.8", ⟨"1.2.8", "Media Alternative (Prerecorded)", WcagLevel.AAA, "Alternative provided for prerecorded synchronized media", "https://www.w3.org/TR/WCAG21/#media-alternative-prerecorded", some "media"⟩),
  ("1.2.9", ⟨"1.2.9", "Audio-only (Live)", WcagLevel.AAA, "Alternative provided for live audio-only content", "https://www.w3.org/TR/WCAG21/#audio-only-live", some "media"⟩),
  ("1.3.1", ⟨"1.3.1", "Info and Relationships", WcagLevel.A, "Information, structure, and relationships can be programmatically determined", "https://www.w3.org/TR/WCAG21/#info-and-relationships", some "structure"⟩),
  ("1.3.2", ⟨"1.3.2", "Meaningful Sequence", WcagLevel.A, "Correct reading sequence can be programmatically determined", "https://www.w3.org/TR/WCAG21/#meaningful-sequence", some "structure"⟩),
  ("1.3.3", ⟨"1.3.3", "Sensory Characteristics", WcagLevel.A, "Instructions don't rely solely on sensory characteristics", "https://www.w3.org/TR/WCAG21/#sensory-characteristics", some "structure"⟩),
  ("1.3.4", ⟨"1.3.4", "Orientation", WcagLevel.AA, "Content not restricted to a single display orientation", "https://www.w3.org/TR/WCAG21/#orientation", some "structure"⟩),
  ("1.3.5", ⟨"1.3.5", "Identify Input Purpose", WcagLevel.AA, "Input field purpose can be programmatically determined", "https://www.w3.org/TR/WCAG21/#identify-input-purpose", some "forms"⟩),
  ("1.3.6", ⟨"1.3.6", "Identify Purpose", WcagLevel.AAA, "Purpose of UI components can be programmatically determined", "https://www.w3.org/TR/WCAG21/#identify-purpose", some "structure"⟩),
  ("1.4.1", ⟨"1.4.1", "Use of Color", WcagLevel.A, "Color is not the only visual means of conveying information", "https://www.w3.org/TR/WCAG21/#use-of-color", some "text"⟩),
  ("1.4.2", ⟨"1.4.2", "Audio Control", WcagLevel.A, "Mechanism to pause, stop, or control audio volume", "https://www.w3.org/TR/WCAG21/#audio-control", some "media"⟩),
  ("1.4.3", ⟨"1.4.3", "Contrast (Minimum)", WcagLevel.AA, "Text has a contrast ratio of at least 4.5:1 (3:1 for large text)", "https://www.w3.org/TR/WCAG21/#contrast-minimum", some "text"⟩),
  ("1.4.4", ⟨"1.4.4", "Resize Text", WcagLevel.AA, "Text can be resized up to 200% without loss of content or functionality", "https://www.w3.org/TR/WCAG21/#resize-text", some "text"⟩),
  ("1.4.5", ⟨"1.4.5", "Images of Text", WcagLevel.AA, "Use text rather than images of text (except for customizable or essential)", "https://www.w3.org/TR/WCAG21/#images-of-text", some "text"⟩),
  ("1.4.6", ⟨"1.4.6", "Contrast (Enhanced)", WcagLevel.AAA, "Text has a contrast ratio of at least 7:1 (4.5:1 for large text)", "https://www.w3.org/TR/WCAG21/#contrast-enhanced", some "text"⟩),
  ("1.4.7", ⟨"1.4.7", "Low or No Background Audio", WcagLevel.AAA, "Prerecorded audio has low/no background noise or can be turned off", "https://www.w3.org/TR/WCAG21/#low-or-no-background-audio", some "media"⟩),
  ("1.4.8", ⟨"1.4.8", "Visual Presentation", WcagLevel.AAA, "Text blocks: select colors, max 80 chars/line, no justify, adequate spacing, 200% resize", "https://www.w3.org/TR/WCAG21/#visual-presentation", some "text"⟩),
  ("1.4.9", ⟨"1.4.9", "Images of Text (No Exception)", WcagLevel.AAA, "Images of text only used for pure decoration or where essential", "https://www.w3.org/TR/WCAG21/#images-of-text-no-exception", some "text"⟩),
  ("1.4.10", ⟨"1.4.10", "Reflow", WcagLevel.AA, "Content reflows at 400% zoom without horizontal scrolling (320px viewport)", "https://www.w3.org/TR/WCAG21/#reflow", some "text"⟩),
  ("1.4.11", ⟨"1.4.11", "Non-text Contrast", WcagLevel.AA, "UI components and graphics have 3:1 contrast ratio", "https://www.w3.org/TR/WCAG21/#non-text-contrast", some "text"⟩),
  ("1.4.12", ⟨"1.4.12", "Text Spacing", WcagLevel.AA, "No loss of content when: line-height 1.5x, paragraph spacing 2x, letter spacing 0.12x, word spacing 0.16x", "https://www.w3.org/TR/WCAG21/#text-spacing", some "text"⟩),
  ("1.4.13", ⟨"1.4.13", "Content on Hover or Focus", WcagLevel.AA, "Additional content on hover/focus is dismissible, hoverable, and persistent", "https://www.w3.org/TR/WCAG21/#content-on-hover-or-focus", some "keyboard"⟩),
  ("2.1.1", ⟨"2.1.1", "Keyboard", WcagLevel.A, "All functionality available from keyboard", "https://www.w3.org/TR/WCAG21/#keyboard", some "keyboard"⟩),
  ("2.1.2", ⟨"2.1.2", "No Keyboard Trap", WcagLevel.A, "Keyboard focus can be moved away from any component", "https://www.w3.org/TR/WCAG21/#no-keyboard-trap", some "keyboard"⟩),
  ("2.1.3", ⟨"2.1.3", "Keyboard (No Exception)", WcagLevel.AAA, "All functionality available from keyboard without exception", "https://www.w3.org/TR/WCAG21/#keyboard-no-exception", some "keyboard"⟩),
  ("2.1.4", ⟨"2.1.4", "Character Key Shortcuts", WcagLevel.A, "Character key shortcuts can be turned off or remapped", "https://www.w3.org/TR/WCAG21/#character-key-shortcuts", some "keyboard"⟩),
  ("2.2.1", ⟨"2.2.1", "Timing Adjustable", WcagLevel.A, "Time limits can be turned off, adjusted, or extended", "https://www.w3.org/TR/WCAG21/#timing-adjustable", some "keyboard"⟩),
  ("2.2.2", ⟨"2.2.2", "Pause, Stop, Hide", WcagLevel.A, "Moving, blinking, scrolling, or auto-updating content can be paused, stopped, or hidden", "https://www.w3.org/TR/WCAG21/#pause-stop-hide", some "media"⟩),
  ("2.2.3", ⟨"2.2.3", "No Timing", WcagLevel.AAA, "Timing is not essential part of the activity", "https://www.w3.org/TR/WCAG21/#no-timing", some "keyboard"⟩),
  ("2.2.4", ⟨"2.2.4", "Interruptions", WcagLevel.AAA, "Interruptions can be postponed or suppressed", "https://www.w3.org/TR/WCAG21/#interruptions", some "keyboard"⟩),
  ("2.2.5", ⟨"2.2.5", "Re-authenticating", WcagLevel.AAA, "Data preserved after re-authentication", "https://www.w3.org/TR/WCAG21/#re-authenticating", some "forms"⟩),
  ("2.2.6", ⟨"2.2.6", "Timeouts", WcagLevel.AAA, "Users warned of inactivity timeouts that cause data loss", "https://www.w3.org/TR/WCAG21/#timeouts", some "forms"⟩),
  ("2.3.1", ⟨"2.3.1", "Three Flashes or Below Threshold", WcagLevel.A, "No content flashes more than 3 times per second", "https://www.w3.org/TR/WCAG21/#three-flashes-or-below-threshold", some "media"⟩),
  ("2.3.2", ⟨"2.3.2", "Three Flashes", WcagLevel.AAA, "No content flashes more than 3 times per second", "https://www.w3.org/TR/WCAG21/#three-flashes", some "media"⟩),
  ("2.3.3", ⟨"2.3.3", "Animation from Interactions", WcagLevel.AAA, "Motion animation can be disabled", "https://www.w3.org/TR/WCAG21/#animation-from-interactions", some "media"⟩),
  ("2.4.1", ⟨"2.4.1", "Bypass Blocks", WcagLevel.A, "Mechanism to bypass repeated blocks of content", "https://www.w3.org/TR/WCAG21/#bypass-blocks", some "structure"⟩),
  ("2.4.2", ⟨"2.4.2", "Page Titled", WcagLevel.A, "Pages have descriptive titles", "https://www.w3.org/TR/WCAG21/#page-titled", some "structure"⟩),
  ("2.4.3", ⟨"2.4.3", "Focus Order", WcagLevel.A, "Focus order preserves meaning and operability", "https://www.w3.org/TR/WCAG21/#focus-order", some "keyboard"⟩),
  ("2.4.4", ⟨"2.4.4", "Link Purpose (In Context)", WcagLevel.A, "Link purpose can be determined from link text or context", "https://www.w3.org/TR/WCAG21/#link-purpose-in-context", some "structure"⟩),
  ("2.4.5", ⟨"2.4.5", "Multiple Ways", WcagLevel.AA, "More than one way to locate a page within a set of pages", "https://www.w3.org/TR/WCAG21/#multiple-ways", some "structure"⟩),
  ("2.4.6", ⟨"2.4.6", "Headings and Labels", WcagLevel.AA, "Headings and labels describe topic or purpose", "https://www.w3.org/TR/WCAG21/#headings-and-labels", some "structure"⟩),
  ("2.4.7", ⟨"2.4.7", "Focus Visible", WcagLevel.AA, "Keyboard focus indicator is visible", "https://www.w3.org/TR/WCAG21/#focus-visible", some "keyboard"⟩),
  ("2.4.8", ⟨"2.4.8", "Location", WcagLevel.AAA, "Information about user's location within a set of pages", "https://www.w3.org/TR/WCAG21/#location", some "structure"⟩),
  ("2.4.9", ⟨"2.4.9", "Link Purpose (Link Only)", WcagLevel.AAA, "Link purpose can be determined from link text alone", "https://www.w3.org/TR/WCAG21/#link-purpose-link-only", some "structure"⟩),
  ("2.4.10", ⟨"2.4.10", "Section Headings", WcagLevel.AAA, "Section headings are used to organize content", "https://www.w3.org/TR/WCAG21/#section-headings", some "structure"⟩),
  ("2.5.1", ⟨"2.5.1", "Pointer Gestures", WcagLevel.A, "Multipoint or path-based gestures have single-pointer alternatives", "https://www.w3.org/TR/WCAG21/#pointer-gestures", some "keyboard"⟩),
  ("2.5.2", ⟨"2.5.2", "Pointer Cancellation", WcagLevel.A, "Single-pointer functions can be cancelled", "https://www.w3.org/TR/WCAG21/#pointer-cancellation", some "keyboard"⟩),
  ("2.5.3", ⟨"2.5.3", "Label in Name", WcagLevel.A, "Accessible name contains the visible label text", "https://www.w3.org/TR/WCAG21/#label-in-name", some "forms"⟩),
  ("2.5.4", ⟨"2.5.4", "Motion Actuation", WcagLevel.A, "Motion-triggered functions can be disabled and have alternatives", "https://www.w3.org/TR/WCAG21/#motion-actuation", some "keyboard"⟩),
  ("2.5.5", ⟨"2.5.5", "Target Size", WcagLevel.AAA, "Target size is at least 44Ã—44 CSS pixels", "https://www.w3.org/TR/WCAG21/#target-size", some "keyboard"⟩),
  ("2.5.6", ⟨"2.5.6", "Concurrent Input Mechanisms", WcagLevel.AAA, "Input modalities are not restricted", "https://www.w3.org/TR/WCAG21/#concurrent-input-mechanisms", some "keyboard"⟩),
  ("3.1.1", ⟨"3.1.1", "Language of Page", WcagLevel.A, "Default language of the page can be programmatically determined", "https://www.w3.org/TR/WCAG21/#language-of-page", some "text"⟩),
  ("3.1.2", ⟨"3.1.2", "Language of Parts", WcagLevel.AA, "Language of passages/phrases can be programmatically determined", "https://www.w3.org/TR/WCAG21/#language-of-parts", some "text"⟩),
  ("3.1.3", ⟨"3.1.3", "Unusual Words", WcagLevel.AAA, "Mechanism for identifying definitions of unusual words", "https://www.w3.org/TR/WCAG21/#unusual-words", some "text"⟩),
  ("3.1.4", ⟨"3.1.4", "Abbreviations", WcagLevel.AAA, "Mechanism for identifying expanded form of abbreviations", "https://www.w3.org/TR/WCAG21/#abbreviations", some "text"⟩),
  ("3.1.5", ⟨"3.1.5", "Reading Level", WcagLevel.AAA, "Supplemental content available when text requires advanced reading", "https://www.w3.org/TR/WCAG21/#reading-level", some "text"⟩),
  ("3.1.6", ⟨"3.1.6", "Pronunciation", WcagLevel.AAA, "Mechanism for identifying pronunciation of words", "https://www.w3.org/TR/WCAG21/#pronunciation", some "text"⟩),
  ("3.2.1", ⟨"3.2.1", "On Focus", WcagLevel.A, "Focus does not trigger unexpected context changes", "https://www.w3.org/TR/WCAG21/#on-focus", some "keyboard"⟩),
  ("3.2.2", ⟨"3.2.2", "On Input", WcagLevel.A, "Input does not trigger unexpected context changes", "https://www.w3.org/TR/WCAG21/#on-input", some "forms"⟩),
  ("3.2.3", ⟨"3.2.3", "Consistent Navigation", WcagLevel.AA, "Navigation is consistent across pages", "https://www.w3.org/TR/WCAG21/#consistent-navigation", some "structure"⟩),
  ("3.2.4", ⟨"3.2.4", "Consistent Identification", WcagLevel.AA, "Components with same functionality identified consistently", "https://www.w3.org/TR/WCAG21/#consistent-identification", some "structure"⟩),
  ("3.2.5", ⟨"3.2.5", "Change on Request", WcagLevel.AAA, "Context changes only on user request", "https://www.w3.org/TR/WCAG21/#change-on-request", some "forms"⟩),
  ("3.3.1", ⟨"3.3.1", "Error Identification", WcagLevel.A, "Input errors are identified and described in text", "https://www.w3.org/TR/WCAG21/#error-identification", some "forms"⟩),
  ("3.3.2", ⟨"3.3.2", "Labels or Instructions", WcagLevel.A, "Labels or instructions provided for user input", "https://www.w3.org/TR/WCAG21/#labels-or-instructions", some "forms"⟩),
  ("3.3.3", ⟨"3.3.3", "Error Suggestion", WcagLevel.AA, "Suggestions provided for correcting input errors", "https://www.w3.org/TR/WCAG21/#error-suggestion", some "forms"⟩),
  ("3.3.4", ⟨"3.3.4", "Error Prevention (Legal, Financial, Data)", WcagLevel.AA, "Submissions are reversible, checked, or confirmed", "https://www.w3.org/TR/WCAG21/#error-prevention-legal-financial-data", some "forms"⟩),
  ("3.3.5", ⟨"3.3.5", "Help", WcagLevel.AAA, "Context-sensitive help is available", "https://www.w3.org/TR/WCAG21/#help", some "forms"⟩),
  ("3.3.6", ⟨"3.3.6", "Error Prevention (All)", WcagLevel.AAA, "All submissions are reversible, checked, or confirmed", "https://www.w3.org/TR/WCAG21/#error-prevention-all", some "forms"⟩),
  ("4.1.1", ⟨"4.1.1", "Parsing", WcagLevel.A, "Elements have complete start/end tags and are properly nested (obsolete in WCAG 2.2)", "https://www.w3.org/TR/WCAG21/#parsing", some "aria"⟩),
  ("4.1.2", ⟨"4.1.2", "Name, Role, Value", WcagLevel.A, "UI components have accessible name, role, states, properties, and values", "https://www.w3.org/TR/WCAG21/#name-role-value", some "aria"⟩),
  ("4.1.3", ⟨"4.1.3", "Status Messages", WcagLevel.AA, "Status messages can be programmatically determined without focus", "https://www.w3.org/TR/WCAG21/#status-messages", some "aria"⟩)
]

/-- getCriterion (criteria.ts): `WCAG_CRITERIA[id]`. -/
def getCriterion (id : String) : Option WcagCriterion :=
  jsGet WCAG_CRITERIA id

/-- The 63-character double-line section separator of the human report. -/
def heavyRule : String := String.mk (List.replicate 63 '═')

/-- The 63-character single-line section separator of the human report. -/
def lightRule : String := String.mk (List.replicate 63 '─')

/-- The per-verdict block pushed by `formatHumanReport` for failures and
warnings: header, message, optional recommendation arrow, blank line. -/
def humanBlock (r : CheckResult) : List String :=
  ["[" ++ r.criterion ++ "] " ++ r.name ++ " (Level " ++ levelStr r.level ++ ")",
   "   " ++ r.message] ++
  (match r.recommendation with
   | some rec => ["   → " ++ rec]
   | none => []) ++
  [""]

/-- The one-line rendering used for info and pass entries. -/
def humanLine (r : CheckResult) : String :=
  "[" ++ r.criterion ++ "] " ++ r.name ++ " (Level " ++ levelStr r.level ++ "): " ++ r.message

/-- formatHumanReport (report builder): the human-readable multi-section
rendering, sections ordered failures → warnings → info → passes. -/
def formatHumanReport (results : List CheckResult) (title : Option String) : String :=
  let reportTitle := title.getD "WCAG ACCESSIBILITY REPORT"
  let passed := results.filter (fun r => r.status == CheckStatus.pass)
  let failed := results.filter (fun r => r.status == CheckStatus.fail)
  let warnings := results.filter (fun r => r.status == CheckStatus.warning)
  let info := results.filter (fun r => r.status == CheckStatus.info)
  let lines : List String :=
    [heavyRule,
     "                    " ++ reportTitle.toUpper ++ "              ",
     heavyRule,
     "",
     "SUMMARY: " ++ toString passed.length ++ " passed, " ++ toString failed.length ++
       " failed, " ++ toString warnings.length ++ " warnings",
     ""] ++
    (if failed.length > 0 then
      ["❌ FAILURES",
       lightRule] ++
      (failed.map humanBlock).flatten
     else []) ++
    (if warnings.length > 0 then
      ["⚠️  WARNINGS",
       lightRule] ++
      (warnings.map humanBlock).flatten
     else []) ++
    (if info.length > 0 then
      ["ℹ️  INFO",
       lightRule] ++
      info.map humanLine ++ [""]
     else []) ++
    (if passed.length > 0 then
      ["✅ PASSED",
       lightRule] ++
      passed.map humanLine ++ [""]
     else []) ++
    [heavyRule]
  String.intercalate "\n" lines

/-- formatMachineReport (report builder): the machine-readable structure.
The source captures `new Date().toISOString()` at render time; that effect
is modelled by the explicit `timestamp` argument. -/
def formatMachineReport (results : List CheckResult) (category : Option String)
    (timestamp : String) : MachineReport :=
  let passed := results.filter (fun r => r.status == CheckStatus.pass)
  let failed := results.filter (fun r => r.status == CheckStatus.fail)
  let warnings := results.filter (fun r => r.status == CheckStatus.warning)
  { wcagVersion := "2.1"
    timestamp := timestamp
    category := category
    summary :=
      { total := results.length
        passed := passed.length
        failed := failed.length
        warnings := warnings.length }
    results := results.map (fun r =>
      { criterion := r.criterion
        name := r.name
        level := r.level
        status := r.status
        value := r.value
        required := r.required
        message := r.message
        recommendation := r.recommendation
        url := (getCriterion r.criterion).map (fun c => c.url) }) }

/-- createReport (report builder): aggregates verdicts into a
`ValidationReport` with the summary, the human rendering and the machine
rendering.  `timestamp` models the render-time clock read performed inside
`formatMachineReport`. -/
def createReport (results : List CheckResult) (options : ReportOptions)
    (timestamp : String) : ValidationReport :=
  let passed := results.filter (fun r => r.status == CheckStatus.pass)
  let failed := results.filter (fun r => r.status == CheckStatus.fail)
  let warnings := results.filter (fun r => r.status == CheckStatus.warning)
  let byLevel := fun (level : WcagLevel) =>
    { passed := (results.filter (fun r => r.level == level && r.status == CheckStatus.pass)).length
      failed := (results.filter (fun r => r.level == level && r.status == CheckStatus.fail)).length
      : LevelTally }
  { summary :=
      { total := results.length
        passed := passed.length
        failed := failed.length
        warnings := warnings.length
        levelA := byLevel WcagLevel.A
        levelAA := byLevel WcagLevel.AA
        levelAAA := byLevel WcagLevel.AAA }
    results := results
    human := formatHumanReport results options.title
    machine := formatMachineReport results options.category timestamp }

/-- REQUIREMENTS.contrast.AA.normal (src/packages/text/src/checks.ts). -/
def REQUIREMENTS.contrast.AA.normal : ℚ := 4.5

/-- REQUIREMENTS.contrast.AA.large. -/
def REQUIREMENTS.contrast.AA.large : ℚ := 3

/-- REQUIREMENTS.contrast.AAA.normal. -/
def REQUIREMENTS.contrast.AAA.normal : ℚ := 7

/-- REQUIREMENTS.contrast.AAA.large. -/
def REQUIREMENTS.contrast.AAA.large : ℚ := 4.5

/-- REQUIREMENTS.textSpacing.lineHeight. -/
def REQUIREMENTS.textSpacing.lineHeight : ℚ := 1.5

/-- REQUIREMENTS.textSpacing.paragraphSpacing. -/
def REQUIREMENTS.textSpacing.paragraphSpacing : ℚ := 2

/-- REQUIREMENTS.textSpacing.letterSpacing. -/
def REQUIREMENTS.textSpacing.letterSpacing : ℚ := 0.12

/-- REQUIREMENTS.textSpacing.wordSpacing. -/
def REQUIREMENTS.textSpacing.wordSpacing : ℚ := 0.16

/-- REQUIREMENTS.largeText.normalPx (24px ≙ 18pt). -/
def REQUIREMENTS.largeText.normalPx : ℚ := 24

/-- REQUIREMENTS.largeText.boldPx (18.66px ≙ 14pt bold). -/
def REQUIREMENTS.largeText.boldPx : ℚ := 18.66

/-- isLargeText (checks.ts): large if size ≥ 24px, or bold and ≥ 18.66px. -/
def isLargeText (sizePx : ℚ) (isBold : Bool) : Bool :=
  decide (sizePx ≥ REQUIREMENTS.largeText.normalPx) ||
    (isBold && decide (sizePx ≥ REQUIREMENTS.largeText.boldPx))

/-- The ratio `checkContrastRatio` computes from two parsed colors:
`Math.round(wcagContrast(fg, bg) * 100) / 100`. -/
def contrastValue {Color : Type} (wcagContrast : Color → Color → ℚ) (fg bg : Color) : ℚ :=
  (jsMathRound (wcagContrast fg bg * 100) : ℚ) / 100

/-- checkContrastRatio (src/packages/text/src/checks.ts).  The color-math
capability (`parse`, `wcagContrast` from `culori`) is external to the core
and passed as parameters over an arbitrary color type; `if (!fg || !bg)`
becomes the first two match arms (when `fg` fails to parse the message
names the foreground, otherwise the background). -/
def checkContrastRatio {Color : Type} (parse : String → Option Color)
    (wcagContrast : Color → Color → ℚ)
    (foreground background : String) (sizePx : ℚ) (isBold : Bool) : List CheckResult :=
  match parse foreground, parse background with
  | none, _ =>
    [⟨"1.4.3", "Contrast (Minimum)", WcagLevel.AA, CheckStatus.fail, none, none,
      "Invalid color: " ++ foreground, none⟩]
  | some _, none =>
    [⟨"1.4.3", "Contrast (Minimum)", WcagLevel.AA, CheckStatus.fail, none, none,
      "Invalid color: " ++ background, none⟩]
  | some fg, some bg =>
    let ratio := contrastValue wcagContrast fg bg
    let large := isLargeText sizePx isBold
    let textType := if large then "large" else "normal"
    let aaRequired := if large then REQUIREMENTS.contrast.AA.large
      else REQUIREMENTS.contrast.AA.normal
    let aaPasses := decide (ratio ≥ aaRequired)
    let aaaRequired := if large then REQUIREMENTS.contrast.AAA.large
      else REQUIREMENTS.contrast.AAA.normal
    let aaaPasses := decide (ratio ≥ aaaRequired)
    [⟨"1.4.3", "Contrast (Minimum)", WcagLevel.AA,
      if aaPasses then CheckStatus.pass else CheckStatus.fail,
      some (CheckValue.n ratio), some (ReqValue.n aaRequired),
      if aaPasses then
        "Contrast ratio " ++ decimalString ratio ++ ":1 meets AA requirement (" ++
          decimalString aaRequired ++ ":1 for " ++ textType ++ " text)"
      else
        "Contrast ratio " ++ decimalString ratio ++ ":1 fails AA requirement (" ++
          decimalString aaRequired ++ ":1 for " ++ textType ++ " text)",
      if aaPasses then none
      else some ("Increase contrast to at least " ++ decimalString aaRequired ++ ":1")⟩,
     ⟨"1.4.6", "Contrast (Enhanced)", WcagLevel.AAA,
      if aaaPasses then CheckStatus.pass
      else if aaPasses then CheckStatus.warning else CheckStatus.fail,
      some (CheckValue.n ratio), some (ReqValue.n aaaRequired),
      if aaaPasses then
        "Contrast ratio " ++ decimalString ratio ++ ":1 meets AAA requirement (" ++
          decimalString aaaRequired ++ ":1 for " ++ textType ++ " text)"
      else
        "Contrast ratio " ++ decimalString ratio ++ ":1 does not meet AAA requirement (" ++
          decimalString aaaRequired ++ ":1 for " ++ textType ++ " text)",
      if aaaPasses then none
      else some ("Increase contrast to at least " ++ decimalString aaaRequired ++
        ":1 for enhanced accessibility")⟩]

/-- One entry of the `checks` array inside `checkTextSpacing`. -/
structure SpacingCheck where
  name : String
  value : Option ℚ
  multiplier : ℚ
  label : String
deriving DecidableEq, Repr

/-- The per-dimension detail line `checkTextSpacing` appends: label, value,
comparator, required (`toFixed(1)`), multiplier, check mark. -/
def spacingDetail (fontSize : ℚ) (c : SpacingCheck) : String :=
  let required := fontSize * c.multiplier
  let v := c.value.getD 0
  let passes := decide (v ≥ required)
  c.label ++ ": " ++ decimalString v ++ "px " ++ (if passes then "≥" else "<") ++
    " " ++ toFixed1 required ++ "px (" ++ decimalString c.multiplier ++
    "× font size) " ++ (if passes then "✓" else "✗")

/-- checkTextSpacing (src/packages/text/src/checks.ts): builds the four
candidate dimensions, keeps the supplied ones, and emits either one info
verdict (nothing supplied) or one aggregate pass/fail verdict. -/
def checkTextSpacing (fontSize : ℚ) (lineHeight letterSpacing wordSpacing
    paragraphSpacing : Option ℚ) : List CheckResult :=
  let checks : List SpacingCheck :=
    [⟨"lineHeight", lineHeight, REQUIREMENTS.textSpacing.lineHeight, "Line height"⟩,
     ⟨"letterSpacing", letterSpacing, REQUIREMENTS.textSpacing.letterSpacing, "Letter spacing"⟩,
     ⟨"wordSpacing", wordSpacing, REQUIREMENTS.textSpacing.wordSpacing, "Word spacing"⟩,
     ⟨"paragraphSpacing", paragraphSpacing, REQUIREMENTS.textSpacing.paragraphSpacing,
       "Paragraph spacing"⟩]
  let testedChecks := checks.filter (fun c => c.value.isSome)
  if testedChecks.length = 0 then
    [⟨"1.4.12", "Text Spacing", WcagLevel.AA, CheckStatus.info, none, none,
      "No spacing values provided to check. Ensure content adapts to user-defined spacing.",
      none⟩]
  else
    let allPass := testedChecks.all (fun c => decide (c.value.getD 0 ≥ fontSize * c.multiplier))
    let details := testedChecks.map (spacingDetail fontSize)
    [⟨"1.4.12", "Text Spacing", WcagLevel.AA,
      if allPass then CheckStatus.pass else CheckStatus.fail, none, none,
      (if allPass then "Text spacing supports WCAG requirements:\n   "
        else "Text spacing fails WCAG requirements:\n   ") ++
        String.intercalate "\n   " details,
      if allPass then none
      else some "Ensure text remains readable when users apply custom spacing styles"⟩]

/-- HeadingInput (heading-structure check source): one heading. -/
structure HeadingInput where
  level : ℤ
  text : String
  isFirst : Option Bool
  previousLevel : Option ℤ
deriving DecidableEq, Repr

/-- HeadingStructureInput: the ordered heading sequence plus optional
`hasH1` / `h1Count` hints. -/
structure HeadingStructureInput where
  headings : List HeadingInput
  hasH1 : Option Bool
  h1Count : Option Nat
deriving DecidableEq, Repr

/-- The `skippedLevels` array built by the sequential scan inside
`checkHeadingStructure`: for each index `i ≥ 1`, a transition string is
recorded when `headings[i].level - headings[i-1].level > 1`. -/
def skippedLevels (headings : List HeadingInput) : List String :=
  (headings.zip headings.tail).filterMap (fun p =>
    let previous := p.1
    let current := p.2
    if current.level - previous.level > 1 then
      some ("h" ++ toString previous.level ++ " → h" ++ toString current.level ++
        " (\"" ++ current.text ++ "\")")
    else none)

/-- The warning verdict `checkHeadingStructure` emits when at least one
level skip was found, listing all skip transitions. -/
def skipWarningVerdict (skips : List String) : CheckResult :=
  ⟨"1.3.1", "Info and Relationships", WcagLevel.A, CheckStatus.warning, none, none,
    "Heading levels skipped: " ++ String.intercalate "; " skips,
    some "Use heading levels in order (h1, h2, h3...) without skipping levels"⟩

/-- The pass verdict `checkHeadingStructure` emits when no level skip was
found. -/
def seqPassVerdict : CheckResult :=
  ⟨"1.3.1", "Info and Relationships", WcagLevel.A, CheckStatus.pass, none, none,
    "Heading levels follow logical sequence", none⟩

/-- The informational 2.4.6 verdict `checkHeadingStructure` always emits
for a non-empty heading sequence. -/
def headingCountInfoVerdict (n : Nat) : CheckResult :=
  ⟨"2.4.6", "Headings and Labels", WcagLevel.AA, CheckStatus.info, none, none,
    "Page has " ++ toString n ++ " heading(s)", none⟩

/-- checkHeadingStructure (heading-structure check source): empty-sequence
warning, 2.4.6 info verdict, h1-count verdicts, skipped-level scan, 2.4.10
section-headings verdict, in source order. -/
def checkHeadingStructure (input : HeadingStructureInput) : List CheckResult :=
  if input.headings.length = 0 then
    [⟨"1.3.1", "Info and Relationships", WcagLevel.A, CheckStatus.warning, none, none,
      "Page has no headings",
      some "Use heading elements (h1-h6) to identify sections of content"⟩]
  else
    let infoV := headingCountInfoVerdict input.headings.length
    let h1Count := input.h1Count.getD (input.headings.filter (fun h => h.level == 1)).length
    let h1Vs : List CheckResult :=
      if h1Count = 0 then
        [⟨"1.3.1", "Info and Relationships", WcagLevel.A, CheckStatus.warning, none, none,
          "Page lacks h1 heading",
          some "Add a main h1 heading that describes the page content"⟩]
      else if h1Count > 1 then
        [⟨"1.3.1", "Info and Relationships", WcagLevel.A, CheckStatus.warning,
          some (CheckValue.n h1Count), none,
          "Page has " ++ toString h1Count ++ " h1 headings",
          some "Consider using single h1 for main content; multiple h1s can confuse navigation"⟩]
      else []
    let skips := skippedLevels input.headings
    let seqV := if skips.length > 0 then skipWarningVerdict skips else seqPassVerdict
    let sectV : CheckResult :=
      ⟨"2.4.10", "Section Headings", WcagLevel.AAA,
        if input.headings.length ≥ 2 then CheckStatus.pass else CheckStatus.warning,
        none, none,
        if input.headings.length ≥ 2 then "Section headings are used to organize content"
        else "Consider adding more section headings for AAA compliance", none⟩
    infoV :: (h1Vs ++ [seqV, sectV])

/-- One landmark given to `checkLandmarks`: `{ role: string; label?: string }`. -/
structure Landmark where
  role : String
  label : Option String
deriving DecidableEq, Repr

/-- The JavaScript expression `landmark.label || "(unlabeled)"`: a missing
label, and also an empty-string label (falsy), become the placeholder. -/
def jsLabelOrUnlabeled (label : Option String) : String :=
  match label with
  | some l => if l = "" then "(unlabeled)" else l
  | none => "(unlabeled)"

/-- `landmarkCounts[role] = (landmarkCounts[role] || 0) + 1` on an
insertion-ordered record: bump an existing key in place or append it. -/
def bumpCount (m : List (String × Nat)) (role : String) : List (String × Nat) :=
  match m with
  | [] => [(role, 1)]
  | (r, n) :: rest =>
    if r = role then (r, n + 1) :: rest else (r, n) :: bumpCount rest role

/-- `landmarkLabels[role].push(lab)` on an insertion-ordered record. -/
def pushLabel (m : List (String × List String)) (role : String) (lab : String) :
    List (String × List String) :=
  match m with
  | [] => [(role, [lab])]
  | (r, ls) :: rest =>
    if r = role then (r, ls ++ [lab]) :: rest else (r, ls) :: pushLabel rest role lab

/-- The `landmarkCounts` record built by the first loop of `checkLandmarks`. -/
def landmarkCountsOf (landmarks : List Landmark) : List (String × Nat) :=
  landmarks.foldl (fun m lm => bumpCount m lm.role) []

/-- The `landmarkLabels` record built by the first loop of `checkLandmarks`. -/
def landmarkLabelsOf (landmarks : List Landmark) : List (String × List String) :=
  landmarks.foldl (fun m lm => pushLabel m lm.role (jsLabelOrUnlabeled lm.label)) []

/-- The verdict `checkLandmarks` emits for a role appearing more than once:
pass exactly when the stored labels are all distinct (`Set` size equals the
count) and none is the `"(unlabeled)"` placeholder. -/
def duplicateRoleVerdict (role : String) (count : Nat) (labels : List String) : CheckResult :=
  let hasUniqueLabels := labels.dedup.length == count && !(labels.contains "(unlabeled)")
  ⟨"4.1.2", "Name, Role, Value", WcagLevel.A,
    if hasUniqueLabels then CheckStatus.pass else CheckStatus.fail,
    some (CheckValue.s (toString count ++ " " ++ role ++ " landmarks")), none,
    if hasUniqueLabels then "Multiple " ++ role ++ " landmarks have unique labels"
    else "Multiple " ++ role ++ " landmarks lack unique labels: " ++
      String.intercalate ", " labels,
    if hasUniqueLabels then none
    else some ("Add unique aria-label or aria-labelledby to distinguish " ++
      role ++ " landmarks")⟩

/-- checkLandmarks (src/packages/aria/src/index.ts): group landmarks by
role, fail duplicated roles lacking unique labels, warn when no `main`
landmark exists, and emit a single pass verdict when nothing else was
emitted for a non-empty input. -/
def checkLandmarks (landmarks : List Landmark) : List CheckResult :=
  let landmarkCounts := landmarkCountsOf landmarks
  let landmarkLabels := landmarkLabelsOf landmarks
  let dupResults := landmarkCounts.filterMap (fun p =>
    if p.2 > 1 then
      some (duplicateRoleVerdict p.1 p.2 ((jsGet landmarkLabels p.1).getD []))
    else none)
  let mainResults : List CheckResult :=
    if jsGet landmarkCounts "main" = none then
      [⟨"4.1.2", "Name, Role, Value", WcagLevel.A, CheckStatus.warning, none, none,
        "No main landmark found",
        some "Add role=\"main\" or use <main> element for primary content"⟩]
    else []
  let results := dupResults ++ mainResults
  if results.length = 0 && landmarks.length > 0 then
    results ++ [⟨"4.1.2", "Name, Role, Value", WcagLevel.A, CheckStatus.pass, none, none,
      toString landmarks.length ++ " landmark(s) properly defined", none⟩]
  else results

/-- The `transactionType` union of `FormSubmissionInput`
(src/packages/forms/src/checks.ts). -/
inductive TransactionType where
  | legal
  | financial
  | dataModification
  | test
  | other
deriving DecidableEq, Repr

/-- The source string of each transaction type. -/
def transactionTypeStr : TransactionType → String
  | TransactionType.legal => "legal"
  | TransactionType.financial => "financial"
  | TransactionType.dataModification => "data-modification"
  | TransactionType.test => "test"
  | TransactionType.other => "other"

/-- FormSubmissionInput (forms/src/checks.ts). -/
structure FormSubmissionInput where
  transactionType : TransactionType
  isReversible : Option Bool
  dataIsChecked : Option Bool
  canReview : Option Bool
  requiresConfirmation : Option Bool
deriving DecidableEq, Repr

/-- `["legal", "financial", "data-modification"].includes(input.transactionType)`. -/
def isHighStakes (t : TransactionType) : Bool :=
  ["legal", "financial", "data-modification"].contains (transactionTypeStr t)

/-- `input.isReversible || input.dataIsChecked || input.canReview ||
input.requiresConfirmation` (missing optionals are falsy). -/
def hasPrevention (input : FormSubmissionInput) : Bool :=
  input.isReversible.getD false || input.dataIsChecked.getD false ||
    input.canReview.getD false || input.requiresConfirmation.getD false

/-- The 3.3.6 (Level AAA) verdict pushed by `checkErrorPrevention` on the
high-stakes path. -/
def errorPreventionAAAVerdict (hp : Bool) : CheckResult :=
  ⟨"3.3.6", "Error Prevention (All)", WcagLevel.AAA,
    if hp then CheckStatus.pass else CheckStatus.warning, none, none,
    if hp then "Form submission has error prevention (meets AAA for all submissions)"
    else "Consider adding error prevention for all form submissions (AAA)",
    if hp then none
    else some "For AAA, all submissions should be reversible, checked, or confirmed"⟩

/-- checkErrorPrevention (forms/src/checks.ts): early info return for
non-high-stakes transaction types, otherwise a 3.3.4 (AA) verdict followed
by a 3.3.6 (AAA) verdict. -/
def checkErrorPrevention (input : FormSubmissionInput) : List CheckResult :=
  if !isHighStakes input.transactionType then
    [⟨"3.3.4", "Error Prevention (Legal, Financial, Data)", WcagLevel.AA,
      CheckStatus.info, none, none,
      "Transaction type \"" ++ transactionTypeStr input.transactionType ++
        "\" may not require error prevention measures", none⟩]
  else
    let hp := hasPrevention input
    let preventionMethods :=
      [(input.isReversible.getD false, "reversible"),
       (input.dataIsChecked.getD false, "checked for errors"),
       (input.canReview.getD false, "review before submission"),
       (input.requiresConfirmation.getD false, "confirmation required")].filterMap
        (fun p => if p.1 then some p.2 else none)
    [⟨"3.3.4", "Error Prevention (Legal, Financial, Data)", WcagLevel.AA,
      if hp then CheckStatus.pass else CheckStatus.fail,
      some (CheckValue.b hp), none,
      if hp then "Error prevention: " ++ String.intercalate ", " preventionMethods
      else transactionTypeStr input.transactionType ++
        " transaction lacks error prevention mechanism",
      if hp then none
      else some "Provide at least one: reversibility, error checking, review opportunity, or confirmation"⟩,
     errorPreventionAAAVerdict hp]

/-- FlashingInput (media checks source). -/
structure FlashingInput where
  hasFlashing : Bool
  flashesPerSecond : Option ℚ
  flashAreaPercent : Option ℚ
  isBelowThreshold : Option Bool
deriving DecidableEq, Repr

/-- checkFlashing (media checks source): a pass verdict when nothing
flashes; otherwise a 2.3.1 (Level A) safety verdict, a 2.3.2 (Level AAA)
verdict, and a large-area warning when the flashing area exceeds 25%. -/
def checkFlashing (input : FlashingInput) : List CheckResult :=
  if !input.hasFlashing then
    [⟨"2.3.1", "Three Flashes or Below Threshold", WcagLevel.A, CheckStatus.pass,
      none, none, "No flashing content detected", none⟩]
  else
    let flashesPerSecond := input.flashesPerSecond.getD 0
    let isSafe := decide (flashesPerSecond ≤ 3) || input.isBelowThreshold.getD false
    let v231 : CheckResult :=
      ⟨"2.3.1", "Three Flashes or Below Threshold", WcagLevel.A,
        if isSafe then CheckStatus.pass else CheckStatus.fail,
        some (CheckValue.n flashesPerSecond), some (ReqValue.n 3),
        if isSafe then
          "Flashing content is safe (" ++ decimalString flashesPerSecond ++
            " flashes/sec or below threshold)"
        else
          "Content flashes " ++ decimalString flashesPerSecond ++
            " times per second, exceeding safe threshold",
        if isSafe then none
        else some "Reduce flash frequency to 3 or fewer per second, or ensure flashes are below general flash threshold"⟩
    let noFlashing := decide (flashesPerSecond = 0)
    let v232 : CheckResult :=
      ⟨"2.3.2", "Three Flashes", WcagLevel.AAA,
        if noFlashing then CheckStatus.pass else CheckStatus.warning,
        some (CheckValue.n flashesPerSecond), none,
        if noFlashing then "Content does not flash (meets AAA)"
        else "Content flashes " ++ decimalString flashesPerSecond ++
          " times per second - consider removing for AAA",
        if noFlashing then none
        else some "For AAA compliance, avoid any flashing content"⟩
    let areaResults : List CheckResult :=
      if input.flashAreaPercent.getD 0 > 25 then
        [⟨"2.3.1", "Three Flashes or Below Threshold", WcagLevel.A, CheckStatus.warning,
          input.flashAreaPercent.map CheckValue.n, none,
          "Flashing area (" ++ decimalString (input.flashAreaPercent.getD 0) ++
            "% of viewport) is large",
          some "Large flashing areas increase seizure risk; minimize flashing area size"⟩]
      else []
    [v231, v232] ++ areaResults

/-- Projection of the per-level tally of a summary. -/
def levelTallyOf (s : ReportSummary) : WcagLevel → LevelTally
  | WcagLevel.A => s.levelA
  | WcagLevel.AA => s.levelAA
  | WcagLevel.AAA => s.levelAAA

/-- Each verdict has exactly one status, so filtering by the four statuses
partitions any verdict list. -/
theorem length_status_partition (l : List CheckResult) :
    (l.filter (fun r => r.status == CheckStatus.pass)).length +
      (l.filter (fun r => r.status == CheckStatus.fail)).length +
      (l.filter (fun r => r.status == CheckStatus.warning)).length +
      (l.filter (fun r => r.status == CheckStatus.info)).length = l.length := by
  induction l with
  | nil => rfl
  | cons r t ih =>
    cases hs : r.status <;> simp [List.filter_cons, hs] <;> omega

/-- C1: for every verdict sequence and any title/category options, the
report produced by `createReport` satisfies `summary.total = length
results`, the pass/fail/warning counts plus the number of info verdicts
equal the total, and each per-level tally counts exactly the verdicts of
that level with status pass respectively fail — warnings and info never
enter a level tally. -/
theorem createReport_summary_invariants (results : List CheckResult)
    (options : ReportOptions) (timestamp : String) :
    (createReport results options timestamp).summary.total = results.length ∧
    ((createReport results options timestamp).summary.passed +
      (createReport results options timestamp).summary.failed +
      (createReport results options timestamp).summary.warnings +
      (results.filter (fun r => r.status == CheckStatus.info)).length =
      (createReport results options timestamp).summary.total) ∧
    (∀ level : WcagLevel,
      (levelTallyOf (createReport results options timestamp).summary level).passed =
        (results.filter (fun r => r.level == level && r.status == CheckStatus.pass)).length ∧
      (levelTallyOf (createReport results options timestamp).summary level).failed =
        (results.filter (fun r => r.level == level && r.status == CheckStatus.fail)).length) := by
  refine ⟨rfl, ?_, ?_⟩
  · exact length_status_partition results
  · intro level
    cases level <;> exact ⟨rfl, rfl⟩

/-- C9: `checkContrastRatio` is a pure function of its arguments — two
invocations with identical arguments yield the same verdict list — and a
timestamp never appears in a verdict: `createReport` stores its input
verdicts unchanged, while the machine report's `timestamp` field is
exactly the render-time clock value and neither the per-verdict machine
entries nor the summary depend on it. -/
theorem checkContrastRatio_deterministic_no_timestamp {Color : Type}
    (parse : String → Option Color) (wcagContrast : Color → Color → ℚ)
    (foreground background : String) (sizePx : ℚ) (isBold : Bool)
    (results : List CheckResult) (options : ReportOptions) (category : Option String)
    (ts ts1 ts2 : String) :
    checkContrastRatio parse wcagContrast foreground background sizePx isBold =
      checkContrastRatio parse wcagContrast foreground background sizePx isBold ∧
    (createReport results options ts).results = results ∧
    (formatMachineReport results category ts).timestamp = ts ∧
    (formatMachineReport results category ts1).results =
      (formatMachineReport results category ts2).results ∧
    (formatMachineReport results category ts1).summary =
      (formatMachineReport results category ts2).summary :=
  ⟨rfl, rfl, rfl, rfl, rfl⟩

/-- C2: whenever both colors parse, `checkContrastRatio` returns the AA
verdict followed by the AAA verdict, and the AAA status satisfies: fail
when the AA check fails, warning when AA passes but the rounded ratio is
below the AAA threshold, and pass when the ratio meets the AAA
threshold. -/
theorem checkContrastRatio_aaa_status {Color : Type}
    (parse : String → Option Color) (wcagContrast : Color → Color → ℚ)
    (foreground background : String) (sizePx : ℚ) (isBold : Bool) (fg bg : Color)
    (hf : parse foreground = some fg) (hb : parse background = some bg) :
    ∃ aaV aaaV,
      checkContrastRatio parse wcagContrast foreground background sizePx isBold =
        [aaV, aaaV] ∧
      aaV.criterion = "1.4.3" ∧ aaV.level = WcagLevel.AA ∧
      aaaV.criterion = "1.4.6" ∧ aaaV.level = WcagLevel.AAA ∧
      (aaV.status = CheckStatus.fail → aaaV.status = CheckStatus.fail) ∧
      (aaV.status = CheckStatus.pass ∧
          contrastValue wcagContrast fg bg <
            (if isLargeText sizePx isBold then REQUIREMENTS.contrast.AAA.large
              else REQUIREMENTS.contrast.AAA.normal) →
        aaaV.status = CheckStatus.warning) ∧
      ((if isLargeText sizePx isBold then REQUIREMENTS.contrast.AAA.large
          else REQUIREMENTS.contrast.AAA.normal) ≤ contrastValue wcagContrast fg bg →
        aaaV.status = CheckStatus.pass) := by
  unfold checkContrastRatio
  rw [hf, hb]
  refine ⟨_, _, rfl, rfl, rfl, rfl, rfl, ?_, ?_, ?_⟩ <;> dsimp only <;>
    by_cases hL : isLargeText sizePx isBold <;>
    simp only [hL, if_true, if_false, Bool.false_eq_true, ite_true, ite_false] <;>
    split_ifs with h1 h2 <;>
    simp_all [REQUIREMENTS.contrast.AAA.large, REQUIREMENTS.contrast.AAA.normal,
      REQUIREMENTS.contrast.AA.large, REQUIREMENTS.contrast.AA.normal] <;>
    linarith

/-- Closed witness for `checkContrastRatio_aaa_status`: a trivial color
capability whose ratio is 8 makes both checks pass for normal text. -/
theorem checkContrastRatio_aaa_status_witness :
    ∃ aaV aaaV,
      checkContrastRatio (fun (_ : String) => some ()) (fun (_ _ : Unit) => (8 : ℚ))
        "#FFFFFF" "#000000" 16 false = [aaV, aaaV] ∧
      aaaV.status = CheckStatus.pass := by
  obtain ⟨aaV, aaaV, hEq, _, _, _, _, _, _, hPass⟩ :=
    checkContrastRatio_aaa_status (fun (_ : String) => some ())
      (fun (_ _ : Unit) => (8 : ℚ)) "#FFFFFF" "#000000" 16 false () () rfl rfl
  refine ⟨aaV, aaaV, hEq, hPass ?_⟩
  norm_num [isLargeText, contrastValue, jsMathRound, REQUIREMENTS.largeText.normalPx,
    REQUIREMENTS.largeText.boldPx, REQUIREMENTS.contrast.AAA.normal]

/-- C3: when at least one color fails to parse, `checkContrastRatio`
returns exactly one verdict — a fail under the AA contrast criterion 1.4.3
whose message names the color that failed to parse — and, being a total
function, never throws. -/
theorem checkContrastRatio_invalid_color {Color : Type}
    (parse : String → Option Color) (wcagContrast : Color → Color → ℚ)
    (foreground background : String) (sizePx : ℚ) (isBold : Bool)
    (h : parse foreground = none ∨ parse background = none) :
    ∃ bad, (bad = foreground ∨ bad = background) ∧ parse bad = none ∧
      checkContrastRatio parse wcagContrast foreground background sizePx isBold =
        [⟨"1.4.3", "Contrast (Minimum)", WcagLevel.AA, CheckStatus.fail, none, none,
          "Invalid color: " ++ bad, none⟩] := by
  unfold checkContrastRatio
  rcases hfg : parse foreground with _ | fg
  · exact ⟨foreground, Or.inl rfl, hfg, rfl⟩
  · rcases hbg : parse background with _ | bg
    · exact ⟨background, Or.inr rfl, hbg, rfl⟩
    · rcases h with h | h
      · exact absurd hfg (by rw [h]; exact fun hc => Option.noConfusion hc)
      · exact absurd hbg (by rw [h]; exact fun hc => Option.noConfusion hc)

/-- Closed witness for `checkContrastRatio_invalid_color`: a capability
that parses nothing rejects the foreground. -/
theorem checkContrastRatio_invalid_color_witness :
    ∃ bad, (bad = "not-a-color" ∨ bad = "#FFFFFF") ∧
      (fun (_ : String) => (none : Option Unit)) bad = none ∧
      checkContrastRatio (fun (_ : String) => (none : Option Unit))
        (fun (_ _ : Unit) => (1 : ℚ)) "not-a-color" "#FFFFFF" 16 false =
        [⟨"1.4.3", "Contrast (Minimum)", WcagLevel.AA, CheckStatus.fail, none, none,
          "Invalid color: " ++ bad, none⟩] :=
  checkContrastRatio_invalid_color (fun (_ : String) => (none : Option Unit))
    (fun (_ _ : Unit) => (1 : ℚ)) "not-a-color" "#FFFFFF" 16 false (Or.inl rfl)

/-- C5: with at least one spacing value supplied, `checkTextSpacing` emits
exactly one aggregate verdict, whose status is pass exactly when every
supplied dimension is at least `fontSize ×` its multiplier (line-height
1.5, letter-spacing 0.12, word-spacing 0.16, paragraph-spacing 2.0) and
fail otherwise; the comparison is inclusive, so a supplied line-height of
exactly `1.5 × fontSize` passes. -/
theorem checkTextSpacing_aggregate (fontSize : ℚ)
    (lineHeight letterSpacing wordSpacing paragraphSpacing : Option ℚ)
    (hF : 0 < fontSize)
    (hsome : ¬(lineHeight = none ∧ letterSpacing = none ∧ wordSpacing = none ∧
      paragraphSpacing = none)) :
    ∃ v, checkTextSpacing fontSize lineHeight letterSpacing wordSpacing paragraphSpacing
        = [v] ∧
      (v.status = CheckStatus.pass ∨ v.status = CheckStatus.fail) ∧
      (v.status = CheckStatus.pass ↔
        (∀ lh ∈ lineHeight, fontSize * REQUIREMENTS.textSpacing.lineHeight ≤ lh) ∧
        (∀ ls ∈ letterSpacing, fontSize * REQUIREMENTS.textSpacing.letterSpacing ≤ ls) ∧
        (∀ ws ∈ wordSpacing, fontSize * REQUIREMENTS.textSpacing.wordSpacing ≤ ws) ∧
        (∀ ps ∈ paragraphSpacing, fontSize * REQUIREMENTS.textSpacing.paragraphSpacing ≤ ps)) := by
  rcases lineHeight with _ | lh <;> rcases letterSpacing with _ | ls <;>
    rcases wordSpacing with _ | ws <;> rcases paragraphSpacing with _ | ps
  · exact absurd ⟨rfl, rfl, rfl, rfl⟩ hsome
  all_goals refine ⟨_, rfl, ?_, ?_⟩
  all_goals dsimp only
  all_goals split_ifs with hall <;>
    simp_all [Option.mem_def, ge_iff_le]

/-- Closed witness for `checkTextSpacing_aggregate`: font size 16 with a
line-height of exactly 24 = 1.5 × 16 yields a single pass verdict. -/
theorem checkTextSpacing_aggregate_witness :
    ∃ v, checkTextSpacing 16 (some 24) none none none = [v] ∧
      v.status = CheckStatus.pass := by
  obtain ⟨v, hv, _, hiff⟩ :=
    checkTextSpacing_aggregate 16 (some 24) none none none (by norm_num)
      (by intro h; exact Option.noConfusion h.1)
  refine ⟨v, hv, hiff.mpr ?_⟩
  refine ⟨?_, by simp, by simp, by simp⟩
  intro lh hlh
  simp only [Option.mem_def, Option.some.injEq] at hlh
  subst hlh
  norm_num [REQUIREMENTS.textSpacing.lineHeight]

/-- Counterexample to the claim that `checkErrorPrevention` evaluates the
AAA criterion 3.3.6 for all transaction types: for a `"test"` transaction
it returns a single 3.3.4 info verdict and no 3.3.6 or AAA-level verdict
at all. -/
theorem checkErrorPrevention_test_no_aaa :
    (checkErrorPrevention ⟨TransactionType.test, none, none, none, none⟩).length = 1 ∧
    ∀ v ∈ checkErrorPrevention ⟨TransactionType.test, none, none, none, none⟩,
      v.criterion ≠ "3.3.6" ∧ v.level ≠ WcagLevel.AAA := by
  decide

/-- C4 (amended): `checkErrorPrevention` evaluates the error-prevention
condition (at least one of reversible / checked / reviewable / confirmed)
at AAA strictness under criterion 3.3.6 only for the high-stakes
transaction types legal, financial and data-modification; for any other
transaction type it returns a single info verdict under 3.3.4 and emits no
AAA verdict. -/
theorem checkErrorPrevention_aaa_scope (input : FormSubmissionInput) :
    (isHighStakes input.transactionType = true →
      ∃ aaV,
        checkErrorPrevention input = [aaV, errorPreventionAAAVerdict (hasPrevention input)] ∧
        (errorPreventionAAAVerdict (hasPrevention input)).criterion = "3.3.6" ∧
        (errorPreventionAAAVerdict (hasPrevention input)).level = WcagLevel.AAA ∧
        (errorPreventionAAAVerdict (hasPrevention input)).status =
          (if hasPrevention input then CheckStatus.pass else CheckStatus.warning)) ∧
    (isHighStakes input.transactionType = false →
      checkErrorPrevention input =
        [⟨"3.3.4", "Error Prevention (Legal, Financial, Data)", WcagLevel.AA,
          CheckStatus.info, none, none,
          "Transaction type \"" ++ transactionTypeStr input.transactionType ++
            "\" may not require error prevention measures", none⟩]) := by
  constructor
  · intro h
    unfold checkErrorPrevention
    rw [h]
    exact ⟨_, rfl, rfl, rfl, by unfold errorPreventionAAAVerdict; split_ifs <;> rfl⟩
  · intro h
    unfold checkErrorPrevention
    rw [h]
    rfl

/-- Closed witness for `checkErrorPrevention_aaa_scope`: a financial
transaction with no prevention measure gets the AAA verdict with status
warning. -/
theorem checkErrorPrevention_aaa_scope_witness :
    ∃ aaV,
      checkErrorPrevention ⟨TransactionType.financial, none, none, none, none⟩ =
        [aaV, errorPreventionAAAVerdict
          (hasPrevention ⟨TransactionType.financial, none, none, none, none⟩)] ∧
      (errorPreventionAAAVerdict
        (hasPrevention ⟨TransactionType.financial, none, none, none, none⟩)).status =
        CheckStatus.warning := by
  obtain ⟨aaV, hEq, _, _, hStatus⟩ :=
    (checkErrorPrevention_aaa_scope
      ⟨TransactionType.financial, none, none, none, none⟩).1 (by decide)
  exact ⟨aaV, hEq, by rw [hStatus]; rfl⟩

/-- Counterexample to the claim that `checkFlashing` renders its 2.3.1
verdicts at level AA: with flashing content at 3 or 4 flashes per second,
no verdict at all carries level AA — the 2.3.1 verdicts are level A (as
the criteria catalog also records for 2.3.1). -/
theorem checkFlashing_no_aa_verdict :
    (∀ v ∈ checkFlashing ⟨true, some 3, none, none⟩, v.level ≠ WcagLevel.AA) ∧
    (∀ v ∈ checkFlashing ⟨true, some 4, none, none⟩, v.level ≠ WcagLevel.AA) ∧
    (getCriterion "2.3.1").map (fun c => c.level) = some WcagLevel.A := by
  decide

/-- C8 (amended): with flashing content present, `flashesPerSecond = 3`
yields a pass at level A under criterion 2.3.1 (the 3-flashes-per-second
boundary is inclusive), while `flashesPerSecond = 4` yields a fail at
level A under 2.3.1 and a warning at AAA under 2.3.2. -/
theorem checkFlashing_boundary :
    (∃ v ∈ checkFlashing ⟨true, some 3, none, none⟩,
      v.criterion = "2.3.1" ∧ v.level = WcagLevel.A ∧ v.status = CheckStatus.pass) ∧
    (∃ v ∈ checkFlashing ⟨true, some 4, none, none⟩,
      v.criterion = "2.3.1" ∧ v.level = WcagLevel.A ∧ v.status = CheckStatus.fail) ∧
    (∃ v ∈ checkFlashing ⟨true, some 4, none, none⟩,
      v.criterion = "2.3.2" ∧ v.level = WcagLevel.AAA ∧ v.status = CheckStatus.warning) := by
  decide

/-- C10: for every non-empty heading sequence, `checkHeadingStructure`
also emits an info-status verdict under criterion 2.4.6 ("Headings and
Labels", level AA) reporting the number of headings, the result always
contains at least three verdicts, and the info verdict enters the report
summary's total (making it strictly exceed passed + failed + warnings). -/
theorem checkHeadingStructure_info_always (input : HeadingStructureInput)
    (hne : input.headings ≠ []) (options : ReportOptions) (timestamp : String) :
    headingCountInfoVerdict input.headings.length ∈ checkHeadingStructure input ∧
    (headingCountInfoVerdict input.headings.length).criterion = "2.4.6" ∧
    (headingCountInfoVerdict input.headings.length).level = WcagLevel.AA ∧
    (headingCountInfoVerdict input.headings.length).status = CheckStatus.info ∧
    3 ≤ (checkHeadingStructure input).length ∧
    (let s := (createReport (checkHeadingStructure input) options timestamp).summary
     s.passed + s.failed + s.warnings < s.total) := by
  have hlen : ¬(input.headings.length = 0) := by
    simpa [List.length_eq_zero] using hne
  have hR : checkHeadingStructure input =
      headingCountInfoVerdict input.headings.length ::
        ((if (input.h1Count.getD (input.headings.filter (fun h => h.level == 1)).length) = 0 then
            [⟨"1.3.1", "Info and Relationships", WcagLevel.A, CheckStatus.warning, none, none,
              "Page lacks h1 heading",
              some "Add a main h1 heading that describes the page content"⟩]
          else if (input.h1Count.getD
              (input.headings.filter (fun h => h.level == 1)).length) > 1 then
            [⟨"1.3.1", "Info and Relationships", WcagLevel.A, CheckStatus.warning,
              some (CheckValue.n (input.h1Count.getD
                (input.headings.filter (fun h => h.level == 1)).length)),
              none,
              "Page has " ++ toString (input.h1Count.getD
                (input.headings.filter (fun h => h.level == 1)).length) ++ " h1 headings",
              some "Consider using single h1 for main content; multiple h1s can confuse navigation"⟩]
          else []) ++
          [(if (skippedLevels input.headings).length > 0 then
              skipWarningVerdict (skippedLevels input.headings)
            else seqPassVerdict),
           ⟨"2.4.10", "Section Headings", WcagLevel.AAA,
             if input.headings.length ≥ 2 then CheckStatus.pass else CheckStatus.warning,
             none, none,
             if input.headings.length ≥ 2 then "Section headings are used to organize content"
             else "Consider adding more section headings for AAA compliance", none⟩]) := by
    unfold checkHeadingStructure
    rw [if_neg hlen]
  refine ⟨?_, rfl, rfl, rfl, ?_, ?_⟩
  · rw [hR]; exact List.mem_cons_self _ _
  · rw [hR]
    simp only [List.length_cons, List.length_append, List.length_cons, List.length_nil]
    omega
  · have hmem : headingCountInfoVerdict input.headings.length ∈ checkHeadingStructure input := by
      rw [hR]; exact List.mem_cons_self _ _
    have hinfo : 0 < ((checkHeadingStructure input).filter
        (fun r => r.status == CheckStatus.info)).length := by
      rw [List.length_pos]
      intro hnil
      have hmf : headingCountInfoVerdict input.headings.length ∈
          (checkHeadingStructure input).filter (fun r => r.status == CheckStatus.info) :=
        List.mem_filter.mpr ⟨hmem, by rfl⟩
      rw [hnil] at hmf
      exact List.not_mem_nil _ hmf
    have hpart := length_status_partition (checkHeadingStructure input)
    simp only [createReport]
    omega

/-- Closed witness for `checkHeadingStructure_info_always` at a two-element
heading sequence. -/
theorem checkHeadingStructure_info_always_witness :
    headingCountInfoVerdict 2 ∈
      checkHeadingStructure ⟨[⟨1, "Title", none, none⟩, ⟨2, "Section", none, none⟩], none, none⟩ ∧
    3 ≤ (checkHeadingStructure
      ⟨[⟨1, "Title", none, none⟩, ⟨2, "Section", none, none⟩], none, none⟩).length := by
  obtain ⟨h1, _, _, _, h5, _⟩ :=
    checkHeadingStructure_info_always
      ⟨[⟨1, "Title", none, none⟩, ⟨2, "Section", none, none⟩], none, none⟩
      (by simp) ⟨none, none⟩ ""
  exact ⟨h1, h5⟩

/-- Two check results with different statuses are different. -/
theorem checkResult_ne_of_status {a b : CheckResult} (h : a.status ≠ b.status) : a ≠ b :=
  fun he => h (congrArg CheckResult.status he)

/-- Two check results with different criteria are different. -/
theorem checkResult_ne_of_criterion {a b : CheckResult} (h : a.criterion ≠ b.criterion) : a ≠ b :=
  fun he => h (congrArg CheckResult.criterion he)

/-- Two check results with different recommendations are different. -/
theorem checkResult_ne_of_recommendation {a b : CheckResult}
    (h : a.recommendation ≠ b.recommendation) : a ≠ b :=
  fun he => h (congrArg CheckResult.recommendation he)


/-- The "Page lacks h1 heading" warning of `checkHeadingStructure`. -/
def lacksH1Verdict : CheckResult :=
  ⟨"1.3.1", "Info and Relationships", WcagLevel.A, CheckStatus.warning, none, none,
    "Page lacks h1 heading",
    some "Add a main h1 heading that describes the page content"⟩

/-- The "multiple h1 headings" warning of `checkHeadingStructure`. -/
def multipleH1Verdict (c : Nat) : CheckResult :=
  ⟨"1.3.1", "Info and Relationships", WcagLevel.A, CheckStatus.warning,
    some (CheckValue.n c), none,
    "Page has " ++ toString c ++ " h1 headings",
    some "Consider using single h1 for main content; multiple h1s can confuse navigation"⟩

/-- The 2.4.10 section-headings verdict of `checkHeadingStructure`. -/
def sectionHeadingsVerdict (n : Nat) : CheckResult :=
  ⟨"2.4.10", "Section Headings", WcagLevel.AAA,
    if n ≥ 2 then CheckStatus.pass else CheckStatus.warning, none, none,
    if n ≥ 2 then "Section headings are used to organize content"
    else "Consider adding more section headings for AAA compliance", none⟩

/-- The h1-count verdicts of `checkHeadingStructure`. -/
def h1Verdicts (c : Nat) : List CheckResult :=
  if c = 0 then [lacksH1Verdict]
  else if c > 1 then [multipleH1Verdict c]
  else []

/-- `checkHeadingStructure` on a non-empty sequence, written with the named
component verdicts. -/
theorem checkHeadingStructure_eq (input : HeadingStructureInput)
    (hlen : ¬(input.headings.length = 0)) :
    checkHeadingStructure input =
      headingCountInfoVerdict input.headings.length ::
        (h1Verdicts (input.h1Count.getD
            (input.headings.filter (fun h => h.level == 1)).length) ++
          [(if (skippedLevels input.headings).length > 0 then
              skipWarningVerdict (skippedLevels input.headings)
            else seqPassVerdict),
           sectionHeadingsVerdict input.headings.length]) := by
  unfold checkHeadingStructure
  rw [if_neg hlen]
  rfl

/-- Helper for the heading-structure claims: for a non-empty heading
sequence, when skips exist the skip-listing warning occurs exactly once
and the sequence-pass verdict is absent; when no skip exists the
sequence-pass verdict is present and no skip-listing warning of any
content occurs. -/
theorem checkHeadingStructure_seq_cases (input : HeadingStructureInput)
    (hne : input.headings ≠ []) :
    (skippedLevels input.headings ≠ [] →
      (checkHeadingStructure input).count
        (skipWarningVerdict (skippedLevels input.headings)) = 1 ∧
      seqPassVerdict ∉ checkHeadingStructure input) ∧
    (skippedLevels input.headings = [] →
      seqPassVerdict ∈ checkHeadingStructure input ∧
      ∀ skips, skipWarningVerdict skips ∉ checkHeadingStructure input) := by
  have hlen : ¬(input.headings.length = 0) := by
    simpa [List.length_eq_zero] using hne
  rw [checkHeadingStructure_eq input hlen]
  have hski : ∀ s n, skipWarningVerdict s ≠ headingCountInfoVerdict n := fun s n =>
    checkResult_ne_of_status
      ((by decide : CheckStatus.warning ≠ CheckStatus.info))
  have hskl : ∀ s, skipWarningVerdict s ≠ lacksH1Verdict := fun s =>
    checkResult_ne_of_recommendation
      ((by decide :
        (some "Use heading levels in order (h1, h2, h3...) without skipping levels"
          : Option String) ≠
        some "Add a main h1 heading that describes the page content"))
  have hskm : ∀ s c, skipWarningVerdict s ≠ multipleH1Verdict c := fun s c =>
    checkResult_ne_of_recommendation
      ((by decide :
        (some "Use heading levels in order (h1, h2, h3...) without skipping levels"
          : Option String) ≠
        some "Consider using single h1 for main content; multiple h1s can confuse navigation"))
  have hsks : ∀ s n, skipWarningVerdict s ≠ sectionHeadingsVerdict n := fun s n =>
    checkResult_ne_of_criterion ((by decide : "1.3.1" ≠ "2.4.10"))
  have hskp : ∀ s, skipWarningVerdict s ≠ seqPassVerdict := fun s =>
    checkResult_ne_of_status
      ((by decide : CheckStatus.warning ≠ CheckStatus.pass))
  have hpi : ∀ n, seqPassVerdict ≠ headingCountInfoVerdict n := fun n =>
    checkResult_ne_of_status
      ((by decide : CheckStatus.pass ≠ CheckStatus.info))
  have hpl : seqPassVerdict ≠ lacksH1Verdict :=
    checkResult_ne_of_status
      ((by decide : CheckStatus.pass ≠ CheckStatus.warning))
  have hpm : ∀ c, seqPassVerdict ≠ multipleH1Verdict c := fun c =>
    checkResult_ne_of_status
      ((by decide : CheckStatus.pass ≠ CheckStatus.warning))
  have hps : ∀ n, seqPassVerdict ≠ sectionHeadingsVerdict n := fun n =>
    checkResult_ne_of_criterion ((by decide : "1.3.1" ≠ "2.4.10"))
  constructor
  · intro hs
    have hpos : (skippedLevels input.headings).length > 0 :=
      List.length_pos.mpr hs
    rw [if_pos hpos]
    constructor
    · unfold h1Verdicts
      split_ifs <;>
        simp [List.count_cons, List.count_append, beq_iff_eq,
          hski _ _, hskl _, hskm _ _, hsks _ _]
    · have hpsk : ∀ s, seqPassVerdict ≠ skipWarningVerdict s := fun s => (hskp s).symm
      intro hmem
      unfold h1Verdicts at hmem
      split_ifs at hmem <;>
        simp [hpi, hpl, hpm, hps, hpsk] at hmem
  · intro hs
    have hpos : ¬((skippedLevels input.headings).length > 0) := by
      simp [hs]
    rw [if_neg hpos]
    constructor
    · simp [List.mem_cons, List.mem_append]
    · intro skips hmem
      unfold h1Verdicts at hmem
      split_ifs at hmem <;>
        simp [hski, hskl, hskm, hsks, hskp] at hmem

/-- C6: for every non-empty heading sequence, the sequential scan records
every forward jump of more than one level in `skippedLevels`; when any
skip exists `checkHeadingStructure` emits exactly one warning verdict
listing all skip transitions and no sequence-pass verdict, otherwise it
emits the sequence-pass verdict and no skip warning.  In particular
[h1, h2, h4] yields one skip warning whose message mentions "h2 → h4",
and [h1, h2, h3] yields the pass verdict and no skip warning. -/
theorem checkHeadingStructure_skip_claims (input : HeadingStructureInput)
    (hne : input.headings ≠ []) :
    (∀ s, s ∈ skippedLevels input.headings ↔
      ∃ p ∈ input.headings.zip input.headings.tail, p.2.level - p.1.level > 1 ∧
        s = "h" ++ toString p.1.level ++ " → h" ++ toString p.2.level ++
          " (\"" ++ p.2.text ++ "\")") ∧
    (skippedLevels input.headings ≠ [] →
      (checkHeadingStructure input).count
        (skipWarningVerdict (skippedLevels input.headings)) = 1 ∧
      seqPassVerdict ∉ checkHeadingStructure input) ∧
    (skippedLevels input.headings = [] →
      seqPassVerdict ∈ checkHeadingStructure input ∧
      ∀ skips, skipWarningVerdict skips ∉ checkHeadingStructure input) ∧
    skippedLevels [⟨1, "A", none, none⟩, ⟨2, "B", none, none⟩, ⟨4, "C", none, none⟩] =
      ["h2 → h4 (\"C\")"] ∧
    skipWarningVerdict ["h2 → h4 (\"C\")"] ∈ checkHeadingStructure
      ⟨[⟨1, "A", none, none⟩, ⟨2, "B", none, none⟩, ⟨4, "C", none, none⟩], none, none⟩ ∧
    (skipWarningVerdict ["h2 → h4 (\"C\")"]).status = CheckStatus.warning ∧
    (skipWarningVerdict ["h2 → h4 (\"C\")"]).message =
      "Heading levels skipped: h2 → h4 (\"C\")" ∧
    skippedLevels [⟨1, "A", none, none⟩, ⟨2, "B", none, none⟩, ⟨3, "C", none, none⟩] = [] ∧
    seqPassVerdict ∈ checkHeadingStructure
      ⟨[⟨1, "A", none, none⟩, ⟨2, "B", none, none⟩, ⟨3, "C", none, none⟩], none, none⟩ ∧
    ∀ skips, skipWarningVerdict skips ∉ checkHeadingStructure
      ⟨[⟨1, "A", none, none⟩, ⟨2, "B", none, none⟩, ⟨3, "C", none, none⟩], none, none⟩ := by
  have hmain := checkHeadingStructure_seq_cases input hne
  have hex2 := checkHeadingStructure_seq_cases
    ⟨[⟨1, "A", none, none⟩, ⟨2, "B", none, none⟩, ⟨3, "C", none, none⟩], none, none⟩
    (by simp)
  have hex2' := hex2.2 (by decide)
  refine ⟨?_, hmain.1, hmain.2, by decide, by decide, by decide, by decide, by decide,
    hex2'.1, hex2'.2⟩
  intro s
  simp only [skippedLevels, List.mem_filterMap]
  constructor
  · rintro ⟨p, hp, hps⟩
    by_cases hgt : p.2.level - p.1.level > 1
    · rw [if_pos hgt] at hps
      exact ⟨p, hp, hgt, (Option.some.injEq _ _ ▸ hps).symm⟩
    · rw [if_neg hgt] at hps
      exact Option.noConfusion hps
  · rintro ⟨p, hp, hgt, hs⟩
    exact ⟨p, hp, by rw [if_pos hgt, hs]⟩

/-- Closed witness for `checkHeadingStructure_skip_claims` at the
[h1, h2, h4] example. -/
theorem checkHeadingStructure_skip_claims_witness :
    (checkHeadingStructure
        ⟨[⟨1, "A", none, none⟩, ⟨2, "B", none, none⟩, ⟨4, "C", none, none⟩], none, none⟩).count
      (skipWarningVerdict (skippedLevels
        [⟨1, "A", none, none⟩, ⟨2, "B", none, none⟩, ⟨4, "C", none, none⟩])) = 1 ∧
    seqPassVerdict ∉ checkHeadingStructure
      ⟨[⟨1, "A", none, none⟩, ⟨2, "B", none, none⟩, ⟨4, "C", none, none⟩], none, none⟩ :=
  (checkHeadingStructure_skip_claims
    ⟨[⟨1, "A", none, none⟩, ⟨2, "B", none, none⟩, ⟨4, "C", none, none⟩], none, none⟩
    (by simp)).2.1 (by decide)

/-- Looking a key up after `bumpCount`: the bumped key gains one, all
others are untouched. -/
theorem jsGet_bumpCount (m : List (String × Nat)) (r k : String) :
    jsGet (bumpCount m r) k =
      if r = k then some ((jsGet m k).getD 0 + 1) else jsGet m k := by
  induction m with
  | nil =>
    by_cases h : r = k <;> simp [bumpCount, jsGet, List.find?_cons, beq_iff_eq, h]
  | cons a rest ih =>
    obtain ⟨a1, a2⟩ := a
    by_cases h1 : a1 = r
    · subst h1
      by_cases h2 : a1 = k <;>
        simp [bumpCount, jsGet, List.find?_cons, beq_iff_eq, h2]
    · by_cases h2 : a1 = k
      · subst h2
        have hrk : ¬(r = a1) := fun he => h1 he.symm
        simp [bumpCount, jsGet, List.find?_cons, beq_iff_eq, h1, hrk]
      · simp only [bumpCount, if_neg h1]
        by_cases h3 : r = k <;>
          simpa [jsGet, List.find?_cons, beq_iff_eq, h2, h3] using ih

/-- Looking a key up after `pushLabel`: the pushed key's list gains the
label at its end, all others are untouched. -/
theorem jsGet_pushLabel (m : List (String × List String)) (r k lab : String) :
    jsGet (pushLabel m r lab) k =
      if r = k then some ((jsGet m k).getD [] ++ [lab]) else jsGet m k := by
  induction m with
  | nil =>
    by_cases h : r = k <;> simp [pushLabel, jsGet, List.find?_cons, beq_iff_eq, h]
  | cons a rest ih =>
    obtain ⟨a1, a2⟩ := a
    by_cases h1 : a1 = r
    · subst h1
      by_cases h2 : a1 = k <;>
        simp [pushLabel, jsGet, List.find?_cons, beq_iff_eq, h2]
    · by_cases h2 : a1 = k
      · subst h2
        have hrk : ¬(r = a1) := fun he => h1 he.symm
        simp [pushLabel, jsGet, List.find?_cons, beq_iff_eq, h1, hrk]
      · simp only [pushLabel, if_neg h1]
        by_cases h3 : r = k <;>
          simpa [jsGet, List.find?_cons, beq_iff_eq, h2, h3] using ih

/-- The `landmarkCounts` record over an arbitrary accumulator. -/
theorem jsGet_foldl_bumpCount (lms : List Landmark) (m : List (String × Nat)) (k : String) :
    jsGet (lms.foldl (fun acc lm => bumpCount acc lm.role) m) k =
      match jsGet m k with
      | some n => some (n + lms.countP (fun lm => lm.role == k))
      | none =>
        if lms.countP (fun lm => lm.role == k) = 0 then none
        else some (lms.countP (fun lm => lm.role == k)) := by
  induction lms generalizing m with
  | nil => cases hm : jsGet m k <;> simp [hm]
  | cons lm rest ih =>
    rw [List.foldl_cons, ih (bumpCount m lm.role), jsGet_bumpCount]
    by_cases h : lm.role = k
    · rw [if_pos h]
      cases hm : jsGet m k <;>
        simp [List.countP_cons, h] <;> omega
    · rw [if_neg h]
      have hbeq : (lm.role == k) = false := beq_eq_false_iff_ne.mpr h
      cases hm : jsGet m k <;> simp [List.countP_cons, hbeq]

/-- The `landmarkCounts` record maps a role to the number of landmarks
carrying it (and has no entry for an absent role). -/
theorem jsGet_landmarkCountsOf (lms : List Landmark) (k : String) :
    jsGet (landmarkCountsOf lms) k =
      if lms.countP (fun lm => lm.role == k) = 0 then none
      else some (lms.countP (fun lm => lm.role == k)) := by
  unfold landmarkCountsOf
  rw [jsGet_foldl_bumpCount]
  simp [jsGet]

/-- The `landmarkLabels` record over an arbitrary accumulator. -/
theorem jsGet_foldl_pushLabel (lms : List Landmark) (m : List (String × List String))
    (k : String) :
    jsGet (lms.foldl (fun acc lm =>
        pushLabel acc lm.role (jsLabelOrUnlabeled lm.label)) m) k =
      match jsGet m k with
      | some ls => some (ls ++ (lms.filter (fun lm => lm.role == k)).map
          (fun lm => jsLabelOrUnlabeled lm.label))
      | none =>
        if lms.filter (fun lm => lm.role == k) = [] then none
        else some ((lms.filter (fun lm => lm.role == k)).map
          (fun lm => jsLabelOrUnlabeled lm.label)) := by
  induction lms generalizing m with
  | nil => cases hm : jsGet m k <;> simp [hm]
  | cons lm rest ih =>
    rw [List.foldl_cons, ih (pushLabel m lm.role (jsLabelOrUnlabeled lm.label)),
      jsGet_pushLabel]
    by_cases h : lm.role = k
    · have hbeq : (lm.role == k) = true := beq_iff_eq.mpr h
      rw [if_pos h]
      cases hm : jsGet m k <;> simp [List.filter_cons, hbeq]
    · have hbeq : (lm.role == k) = false := beq_eq_false_iff_ne.mpr h
      rw [if_neg h]
      cases hm : jsGet m k <;> simp [List.filter_cons, hbeq]

/-- The `landmarkLabels` record maps a role to the (placeholder-mapped)
labels of its landmarks, in input order. -/
theorem jsGet_landmarkLabelsOf (lms : List Landmark) (k : String) :
    jsGet (landmarkLabelsOf lms) k =
      if lms.filter (fun lm => lm.role == k) = [] then none
      else some ((lms.filter (fun lm => lm.role == k)).map
        (fun lm => jsLabelOrUnlabeled lm.label)) := by
  unfold landmarkLabelsOf
  rw [jsGet_foldl_pushLabel]
  simp [jsGet]

/-- A successful `jsGet` exhibits a member of the association list. -/
theorem mem_of_jsGet_eq_some {α : Type} {m : List (String × α)} {k : String} {a : α}
    (h : jsGet m k = some a) : (k, a) ∈ m := by
  unfold jsGet at h
  cases hf : m.find? (fun p => p.1 == k) with
  | none => rw [hf] at h; exact Option.noConfusion h
  | some p =>
    rw [hf] at h
    have hp := List.mem_of_find?_eq_some hf
    have hk := List.find?_some hf
    obtain ⟨p1, p2⟩ := p
    simp at h hk
    subst hk
    subst h
    exact hp

/-- A list has as many distinct elements as elements exactly when it has
no duplicates (the `Set.size === count` test of `checkLandmarks`). -/
theorem dedup_length_eq_iff (l : List String) :
    l.dedup.length = l.length ↔ l.Nodup := by
  constructor
  · intro h
    have he := (List.dedup_sublist l).eq_of_length h
    rw [← he]
    exact List.nodup_dedup l
  · intro h
    rw [h.dedup]

/-- The stored labels of a role are distinct and free of the
`"(unlabeled)"` placeholder exactly when every instance carries an actual
label that is non-empty and not itself the placeholder text, with all
labels pairwise distinct. -/
theorem mapped_labels_unique_iff (instances : List Landmark) :
    ((instances.map (fun lm => jsLabelOrUnlabeled lm.label)).Nodup ∧
      "(unlabeled)" ∉ instances.map (fun lm => jsLabelOrUnlabeled lm.label)) ↔
    ((∀ lm ∈ instances, ∃ lab, lm.label = some lab ∧ lab ≠ "" ∧ lab ≠ "(unlabeled)") ∧
      (instances.map (fun lm => lm.label)).Nodup) := by
  have hcomp : instances.map (fun lm => jsLabelOrUnlabeled lm.label) =
      (instances.map (fun lm => lm.label)).map jsLabelOrUnlabeled := by
    rw [List.map_map]
    rfl
  constructor
  · rintro ⟨hnd, hns⟩
    constructor
    · intro lm hlm
      have hne : jsLabelOrUnlabeled lm.label ≠ "(unlabeled)" := by
        intro he
        exact hns (he ▸ List.mem_map_of_mem _ hlm)
      cases hl : lm.label with
      | none => exact absurd (by rw [hl]; rfl) hne
      | some lab =>
        refine ⟨lab, rfl, ?_, ?_⟩
        · intro he
          apply hne
          rw [hl, he]
          rfl
        · intro he
          apply hne
          rw [hl, he]
          simp [jsLabelOrUnlabeled]
    · rw [hcomp] at hnd
      exact List.Nodup.of_map _ hnd
  · rintro ⟨hall, hnd⟩
    have hval : ∀ lm ∈ instances, ∀ lab, lm.label = some lab → lab ≠ "" →
        jsLabelOrUnlabeled lm.label = lab := by
      intro lm _ lab hl hne
      rw [hl]
      simp [jsLabelOrUnlabeled, hne]
    constructor
    · rw [hcomp]
      refine List.Nodup.map_on ?_ hnd
      intro o1 h1 o2 h2 heq
      obtain ⟨lm1, hlm1, rfl⟩ := List.mem_map.mp h1
      obtain ⟨lm2, hlm2, rfl⟩ := List.mem_map.mp h2
      obtain ⟨lab1, he1, hne1, _⟩ := hall lm1 hlm1
      obtain ⟨lab2, he2, hne2, _⟩ := hall lm2 hlm2
      rw [hval lm1 hlm1 lab1 he1 hne1, hval lm2 hlm2 lab2 he2 hne2] at heq
      rw [he1, he2, heq]
    · intro hmem
      obtain ⟨lm, hlm, he⟩ := List.mem_map.mp hmem
      obtain ⟨lab, hl, hne, hns⟩ := hall lm hlm
      rw [hval lm hlm lab hl hne] at he
      exact hns he

/-- Counterexample to the claim that for a duplicated landmark role the
verdict passes exactly when all instances carry distinct, non-empty
labels: two navigation landmarks labeled `"(unlabeled)"` and `"Nav"` carry
distinct non-empty labels, yet no verdict passes, because the code maps
missing labels to the placeholder string `"(unlabeled)"` and a literal
label equal to that placeholder collides with it. -/
theorem checkLandmarks_placeholder_label_cex :
    (∀ lm ∈ ([⟨"navigation", some "(unlabeled)"⟩, ⟨"navigation", some "Nav"⟩] :
        List Landmark), lm.label ≠ none ∧ lm.label ≠ some "") ∧
    (([⟨"navigation", some "(unlabeled)"⟩, ⟨"navigation", some "Nav"⟩] :
        List Landmark).map (fun lm => lm.label)).Nodup ∧
    ∀ v ∈ checkLandmarks [⟨"navigation", some "(unlabeled)"⟩, ⟨"navigation", some "Nav"⟩],
      v.status ≠ CheckStatus.pass := by
  decide

/-- C7 (amended): for every landmark role appearing more than once, the
verdict `checkLandmarks` emits for that role has status pass if and only
if all instances of the role carry distinct, non-empty labels none of
which is the literal placeholder text "(unlabeled)" (uniform unlabeled
duplicates fail).  In particular two navigation landmarks both labeled
"Main Nav" yield a fail verdict, and the same two landmarks labeled
"Main Nav" and "Footer Nav" yield a pass verdict. -/
theorem checkLandmarks_duplicate_roles (landmarks : List Landmark) (role : String)
    (hdup : 1 < (landmarks.filter (fun lm => lm.role == role)).length) :
    (duplicateRoleVerdict role (landmarks.filter (fun lm => lm.role == role)).length
        ((landmarks.filter (fun lm => lm.role == role)).map
          (fun lm => jsLabelOrUnlabeled lm.label)) ∈ checkLandmarks landmarks) ∧
    ((duplicateRoleVerdict role (landmarks.filter (fun lm => lm.role == role)).length
        ((landmarks.filter (fun lm => lm.role == role)).map
          (fun lm => jsLabelOrUnlabeled lm.label))).status = CheckStatus.pass ↔
      ((∀ lm ∈ landmarks.filter (fun lm => lm.role == role),
          ∃ lab, lm.label = some lab ∧ lab ≠ "" ∧ lab ≠ "(unlabeled)") ∧
        ((landmarks.filter (fun lm => lm.role == role)).map
          (fun lm => lm.label)).Nodup)) ∧
    (∃ v ∈ checkLandmarks [⟨"navigation", some "Main Nav"⟩, ⟨"navigation", some "Main Nav"⟩],
      v.value = some (CheckValue.s "2 navigation landmarks") ∧
      v.status = CheckStatus.fail) ∧
    (∃ v ∈ checkLandmarks [⟨"navigation", some "Main Nav"⟩, ⟨"navigation", some "Footer Nav"⟩],
      v.value = some (CheckValue.s "2 navigation landmarks") ∧
      v.status = CheckStatus.pass) := by
  have hc := List.countP_eq_length_filter (fun lm => lm.role == role) landmarks
  have hcount : jsGet (landmarkCountsOf landmarks) role =
      some (landmarks.filter (fun lm => lm.role == role)).length := by
    rw [jsGet_landmarkCountsOf, hc, if_neg (by omega)]
  have hfne : ¬(landmarks.filter (fun lm => lm.role == role) = []) := by
    intro h
    rw [h] at hdup
    simp at hdup
  have hlabels : jsGet (landmarkLabelsOf landmarks) role =
      some ((landmarks.filter (fun lm => lm.role == role)).map
        (fun lm => jsLabelOrUnlabeled lm.label)) := by
    rw [jsGet_landmarkLabelsOf, if_neg hfne]
  have hmemc := mem_of_jsGet_eq_some hcount
  refine ⟨?_, ?_, by decide, by decide⟩
  · have hdm : duplicateRoleVerdict role
        (landmarks.filter (fun lm => lm.role == role)).length
        ((landmarks.filter (fun lm => lm.role == role)).map
          (fun lm => jsLabelOrUnlabeled lm.label)) ∈
        (landmarkCountsOf landmarks).filterMap (fun p =>
          if p.2 > 1 then
            some (duplicateRoleVerdict p.1 p.2
              ((jsGet (landmarkLabelsOf landmarks) p.1).getD []))
          else none) := by
      refine List.mem_filterMap.mpr
        ⟨(role, (landmarks.filter (fun lm => lm.role == role)).length), hmemc, ?_⟩
      rw [if_pos hdup, hlabels]
      rfl
    unfold checkLandmarks
    dsimp only
    split_ifs <;>
      first
        | exact List.mem_append_left _ (List.mem_append_left _ hdm)
        | exact List.mem_append_left _ hdm
  · rw [← mapped_labels_unique_iff]
    have hlen : ((landmarks.filter (fun lm => lm.role == role)).map
        (fun lm => jsLabelOrUnlabeled lm.label)).length =
        (landmarks.filter (fun lm => lm.role == role)).length :=
      List.length_map _ _
    unfold duplicateRoleVerdict
    dsimp only
    split_ifs with hU
    · simp only [Bool.and_eq_true, beq_iff_eq, Bool.not_eq_true'] at hU
      obtain ⟨hdl, hct⟩ := hU
      refine iff_of_true rfl ⟨?_, ?_⟩
      · exact (dedup_length_eq_iff _).mp (by rw [hdl, hlen])
      · intro hmem
        have : List.contains ((landmarks.filter (fun lm => lm.role == role)).map
            (fun lm => jsLabelOrUnlabeled lm.label)) "(unlabeled)" = true := by
          simpa using hmem
        rw [hct] at this
        exact Bool.noConfusion this
    · refine iff_of_false (by simp) ?_
      rintro ⟨hnd, hnm⟩
      apply hU
      simp only [Bool.and_eq_true, beq_iff_eq, Bool.not_eq_true']
      refine ⟨by rw [hnd.dedup, hlen], ?_⟩
      simpa using hnm

/-- Closed witness for `checkLandmarks_duplicate_roles`: the two distinctly
labeled navigation landmarks receive their duplicate-role verdict. -/
theorem checkLandmarks_duplicate_roles_witness :
    duplicateRoleVerdict "navigation" 2 ["Main Nav", "Footer Nav"] ∈
      checkLandmarks [⟨"navigation", some "Main Nav"⟩, ⟨"navigation", some "Footer Nav"⟩] := by
  have h := (checkLandmarks_duplicate_roles
    [⟨"navigation", some "Main Nav"⟩, ⟨"navigation", some "Footer Nav"⟩]
    "navigation" (by decide)).1
  simpa using h
